import Mathlib

/-!
# Verification of `pubmed_bib.py`

A shallow embedding of the citation-formatting core of `pubmed_bib.py`
(`format_reference` and the batch driver `convert_references`), together with
theorems settling the specification claims about it.

Strings are modelled as `List Char`.  Python runtime exceptions are modelled by
the `PyError` type and fallible code returns `Except PyError _`.  The regex
scanners are written with an explicit fuel parameter (initialised with the
length of the scanned list, which bounds the number of scanning steps) so that
every definition is structurally recursive and kernel-computable.
-/

deriving instance DecidableEq for Except

/-- The Python runtime exceptions that the code under study can raise. -/
inductive PyError where
  /-- Python `IndexError`: subscripting an empty sequence, e.g. `authors[0]`. -/
  | indexError
  /-- Python `KeyError`: subscripting a dict with a missing key. -/
  | keyError
  /-- Python `TypeError`: an operation on operands of unsupported type, e.g.
      `dict += str`, or calling a function with the wrong number of arguments. -/
  | typeError
  /-- Python `UnboundLocalError`: reading a local variable that was never assigned. -/
  | unboundLocalError
  /-- Python `AttributeError`: accessing a method an object does not have, e.g.
      `keys` on a tuple. -/
  | attributeError
deriving DecidableEq

/-- One element of the CSL `author` array: a dict with optional `family` and
`given` keys. -/
structure Author where
  family : Option (List Char)
  given : Option (List Char)
deriving DecidableEq

/-- A CSL date structure such as `reference['issued']`: a dict whose
`date-parts` key (optional: accessing it when absent is a `KeyError`) holds a
list of lists of integers. -/
structure DateStruct where
  dateParts : Option (List (List Nat))
deriving DecidableEq

/-- The CSL record returned by the PubMed lookup, as a dict with
optionally-present keys.  Field names follow the JSON keys used by the source:
`title`, `author`, `container-title`, `container-title-short`, `volume`,
`page`, `DOI`, `issued`, `epub-date`. -/
structure PyRecord where
  title : Option (List Char)
  author : Option (List Author)
  containerTitle : Option (List Char)
  containerTitleShort : Option (List Char)
  volume : Option (List Char)
  page : Option (List Char)
  doi : Option (List Char)
  issued : Option DateStruct
  epubDate : Option DateStruct
deriving DecidableEq

/-- A record with every key absent, for building concrete test inputs. -/
def emptyRecord : PyRecord :=
  { title := none, author := none, containerTitle := none,
    containerTitleShort := none, volume := none, page := none, doi := none,
    issued := none, epubDate := none }

/-- Tests whether `pat` occurs as a contiguous substring of the list. -/
def containsTag (pat : List Char) : List Char → Bool
  | [] => pat.isPrefixOf []
  | c :: t => pat.isPrefixOf (c :: t) || containsTag pat t

/-- The greedy match of the regex fragment `(.+)TAG` against `rest`: the
largest `k` such that the first `k` characters of `rest` are a non-empty
newline-free capture (each character matched by `.`) and `closeTag` starts at
position `k`.  `none` when no such `k` exists.  The candidate positions
`List.range (rest.length + 1)` are increasing, so `getLast?` of the filtered
list is the greedy (largest) one. -/
def matchGreedy (closeTag rest : List Char) : Option Nat :=
  ((List.range (rest.length + 1)).filter
    (fun k => decide (1 ≤ k) && (rest.take k).all (fun c => c != '\n')
      && closeTag.isPrefixOf (rest.drop k))).getLast?

/-- Fuelled scanner for line 25, `re.sub("<sub>(.+)</sub>", "$_{\1}$", title)`:
scan left to right; at the first position where `<sub>` matches and a greedy
capture followed by `</sub>` exists, replace the whole match by
`$_\x7b` ++ capture ++ `\x7d$` and continue after it; otherwise move one
character right.  `re.sub` replaces every non-overlapping match. -/
def subSubstF : Nat → List Char → List Char
  | _, [] => []
  | 0, _ :: _ => []
  | fuel + 1, c :: t =>
    if ("<sub>").toList.isPrefixOf (c :: t) then
      match matchGreedy ("</sub>").toList (t.drop 4) with
      | some k =>
          ("$_\x7b").toList ++ (t.drop 4).take k ++ ("\x7d$").toList
            ++ subSubstF fuel ((t.drop 4).drop (k + 6))
      | none => c :: subSubstF fuel t
    else c :: subSubstF fuel t

/-- Embedding of line 25 of the source. -/
def subSubst (l : List Char) : List Char := subSubstF l.length l

/-- Fuelled scanner for line 26, `re.sub("<sup>(.+)</sup>", "$^{\1}$", title)`,
analogous to `subSubstF`. -/
def supSubstF : Nat → List Char → List Char
  | _, [] => []
  | 0, _ :: _ => []
  | fuel + 1, c :: t =>
    if ("<sup>").toList.isPrefixOf (c :: t) then
      match matchGreedy ("</sup>").toList (t.drop 4) with
      | some k =>
          ("$^\x7b").toList ++ (t.drop 4).take k ++ ("\x7d$").toList
            ++ supSubstF fuel ((t.drop 4).drop (k + 6))
      | none => c :: supSubstF fuel t
    else c :: supSubstF fuel t

/-- Embedding of line 26 of the source. -/
def supSubst (l : List Char) : List Char := supSubstF l.length l

/-- Uppercase ASCII letter, the character class `[A-Z]` of line 28. -/
def isUp (c : Char) : Bool := 'A' ≤ c && c ≤ 'Z'

/-- Fuelled scanner for line 28, `re.sub("([A-Z]+)", "{\1}", title)`: at the
first uppercase letter the greedy `[A-Z]+` consumes the whole maximal run,
which is replaced by `\x7b` ++ run ++ `\x7d`; scanning continues after it. -/
def capsWrapF : Nat → List Char → List Char
  | _, [] => []
  | 0, _ :: _ => []
  | fuel + 1, c :: t =>
    if isUp c then
      '\x7b' :: (c :: t).takeWhile isUp ++ '\x7d' :: capsWrapF fuel ((c :: t).dropWhile isUp)
    else c :: capsWrapF fuel t

/-- Embedding of line 28 of the source. -/
def capsWrap (l : List Char) : List Char := capsWrapF l.length l

/-- The full title sanitization of lines 25-28 applied to the raw title. -/
def sanitizeTitle (t : List Char) : List Char := capsWrap (supSubst (subSubst t))

/-- Python `str.title()` restricted to ASCII, as applied to family names on
line 53: a letter is uppercased when the previous character is not a letter
(or at the start) and lowercased otherwise; non-letters pass through.  The flag
carries whether the previous character was a letter. -/
def pyTitleGo : Bool → List Char → List Char
  | _, [] => []
  | prevAlpha, c :: t =>
    if c.isAlpha then
      (if prevAlpha then c.toLower else c.toUpper) :: pyTitleGo true t
    else c :: pyTitleGo false t

/-- Python `str.title()` (ASCII model) of line 53. -/
def pyTitle (s : List Char) : List Char := pyTitleGo false s

/-- Python `str(n)` for a natural number. -/
def natStr (n : Nat) : List Char := (Nat.repr n).toList

/-- One iteration of the author loop (lines 32-40): both name parts present
gives `family ++ ", " ++ given`; only one present gives that one; neither
present hits the `continue`, contributing nothing. -/
def authorItem (a : Author) : Option (List Char) :=
  match a.family, a.given with
  | some f, some g => some (f ++ (", ").toList ++ g)
  | some f, none => some f
  | none, some g => some g
  | none, none => none

/-- The `authorList` built by lines 31-40 from the `author` array.  When the
`author` key is absent the source sets `authors = ''`; iterating over the empty
string executes the loop body zero times, exactly like iterating over `[]`. -/
def authorListOf (r : PyRecord) : List (List Char) :=
  (r.author.getD []).filterMap authorItem

/-- The author field value, `' and '.join(authorList)` of line 59. -/
def authorField (r : PyRecord) : List Char :=
  List.intercalate (" and ").toList (authorListOf r)

/-- The title as computed by lines 23-28. -/
def titleComponent (r : PyRecord) : List Char :=
  sanitizeTitle (r.title.getD [])

/-- Evaluation of `d['date-parts'][0][0]` on a date structure (lines 49 and
51): `KeyError` when `date-parts` is absent, `IndexError` when the outer or
inner list is empty, otherwise the leading integer. -/
def extractYear (d : DateStruct) : Except PyError Nat :=
  match d.dateParts with
  | none => .error .keyError
  | some [] => .error .indexError
  | some ([] :: _) => .error .indexError
  | some ((y :: _) :: _) => .ok y

/-- Lines 48-51: `year` is assigned from `issued` if that key is present, else
from `epub-date` if that key is present; when neither key is present the
branch falls through and `year` is left unassigned (`none`). -/
def yearStep (r : PyRecord) : Except PyError (Option Nat) :=
  match r.issued with
  | some d => (extractYear d).map some
  | none =>
    match r.epubDate with
    | some d => (extractYear d).map some
    | none => .ok none

/-- Lines 53-55.  Line 53 evaluates `authors[0]`, raising `IndexError` on an
empty (or absent, hence `''`) author sequence.  If the first author has a
`family` key, `ref_id` is its title-cased value; otherwise `ref_id` is the
author dict itself.  Line 55, `ref_id += str(year)`, first evaluates
`str(year)`, raising `UnboundLocalError` when `year` was never assigned, and
then raises `TypeError` when `ref_id` is the dict rather than a string. -/
def refIdStep (authors : List Author) (year? : Option Nat) : Except PyError (List Char) :=
  match authors with
  | [] => .error .indexError
  | a :: _ =>
    match year? with
    | none => .error .unboundLocalError
    | some y =>
      match a.family with
      | some f => .ok (pyTitle f ++ natStr y)
      | none => .error .typeError

/-- The labelled field values interpolated into the output template of
lines 57-67.  `j1label`/`j1` are the label and value of the first journal line
(line 60), `j2label`/`j2` those of the second (line 61). -/
structure EntryFields where
  ref_id : List Char
  title : List Char
  author : List Char
  j1label : List Char
  j1 : List Char
  j2label : List Char
  j2 : List Char
  volume : List Char
  pages : List Char
  year : List Char
  doi : List Char
deriving DecidableEq

/-- The field computations of `format_reference` (lines 21-65) up to the final
string interpolation.  The input is the `(id, response)` pair produced by
`get_reference`; line 22 unpacks it and `id` is never used.  The two fallible
steps are executed in source order: lines 48-51 (`yearStep`) before lines
53-55 (`refIdStep`).  All other field extractions are total.  The inner
`none` branch is unreachable: `refIdStep` only succeeds when a year was
assigned. -/
def format_fields (idrec : List Char × PyRecord) (use_short : Bool) :
    Except PyError EntryFields :=
  let reference := idrec.2
  match yearStep reference with
  | .error e => .error e
  | .ok year? =>
    match refIdStep (reference.author.getD []) year? with
    | .error e => .error e
    | .ok rid =>
      match year? with
      | none => .error .unboundLocalError
      | some y =>
        .ok { ref_id := rid
              title := titleComponent reference
              author := authorField reference
              j1label := (if use_short then "journal-long" else "journal").toList
              j1 := reference.containerTitle.getD []
              j2label := (if use_short then "journal" else "journal-short").toList
              j2 := reference.containerTitleShort.getD []
              volume := reference.volume.getD []
              pages := reference.page.getD []
              year := natStr y
              doi := reference.doi.getD [] }

/-- The f-string template of lines 57-67, with the doubled braces of the
source rendered as literal braces around each field value. -/
def renderEntry (f : EntryFields) : List Char :=
  ("@article\x7b").toList ++ f.ref_id
    ++ (",\n    title = \x7b").toList ++ f.title
    ++ ("\x7d,\n    author = \x7b").toList ++ f.author
    ++ ("\x7d,\n    ").toList ++ f.j1label ++ (" = \x7b").toList ++ f.j1
    ++ ("\x7d,\n    ").toList ++ f.j2label ++ (" = \x7b").toList ++ f.j2
    ++ ("\x7d,\n    volume = \x7b").toList ++ f.volume
    ++ ("\x7d,\n    pages = \x7b").toList ++ f.pages
    ++ ("\x7d,\n    year = \x7b").toList ++ f.year
    ++ ("\x7d,\n    doi = \x7b").toList ++ f.doi
    ++ ("\x7d\n\x7d\n").toList

/-- `format_reference` (lines 21-68): compute the fields and interpolate them
into the template, or propagate the raised exception. -/
def format_reference (idrec : List Char × PyRecord) (use_short : Bool) :
    Except PyError (List Char) :=
  (format_fields idrec use_short).map renderEntry

/-- The JSON response obtained by `get_reference` for one identifier: either a
citation record or the `⦃status: error⦄`-shaped not-found dict. -/
inductive LookupResponse where
  | found (record : PyRecord)
  | notFound
deriving DecidableEq

/-- Line 109 evaluates `ref.keys()` where `ref` is the `(id, response)` tuple
returned by `get_reference` (line 17); a Python tuple has no `keys` method, so
this raises `AttributeError` unconditionally. -/
def tupleKeys (_ : List Char × LookupResponse) : Except PyError (List (List Char)) :=
  .error .attributeError

/-- Line 113 calls `format_reference(ref)` with a single argument although
`format_reference` has two required parameters, so the call raises `TypeError`
before the function body runs. -/
def format_reference_one_arg (_ : List Char × LookupResponse) : Except PyError (List Char) :=
  .error .typeError

/-- The loop body of `convert_references` (lines 107-115) folded over the
batch, threading the success count, failure count and the lines written to the
output file.  Each item is the `(id, response)` pair for one identifier. -/
def convertLoop : List (List Char × LookupResponse) → Nat → Nat → List (List Char) →
    Except PyError (Nat × Nat × List (List Char))
  | [], s, f, out => .ok (s, f, out.reverse)
  | item :: rest, s, f, out =>
    match tupleKeys item with
    | .error e => .error e
    | .ok _ =>
      match item.2 with
      | .notFound => convertLoop rest s (f + 1) out
      | .found _ =>
        match format_reference_one_arg item with
        | .error e => .error e
        | .ok entry => convertLoop rest (s + 1) f ((entry ++ ("\n").toList) :: out)

/-- `convert_references` (lines 101-120) with the lookup results supplied as
input: returns the success count, failure count and output-file lines, or the
exception that aborted the loop. -/
def convert_references (batch : List (List Char × LookupResponse)) :
    Except PyError (Nat × Nat × List (List Char)) :=
  convertLoop batch 0 0 []

/-- Spec-side formulation of the capital-letter step, following the spec's
words: the title splits into maximal runs; a maximal run of uppercase letters
is wrapped in braces, a maximal run of other characters is kept unchanged.
Declared as a second formulation to compare against `capsWrap`. -/
def wrapRunsF : Nat → List Char → List Char
  | _, [] => []
  | 0, _ :: _ => []
  | fuel + 1, c :: t =>
    if isUp c then
      '\x7b' :: (c :: t).takeWhile isUp ++ '\x7d' :: wrapRunsF fuel ((c :: t).dropWhile isUp)
    else
      (c :: t).takeWhile (fun x => !isUp x) ++ wrapRunsF fuel ((c :: t).dropWhile (fun x => !isUp x))

/-- Spec-side maximal-run wrapping on a whole title. -/
def wrapRuns (l : List Char) : List Char := wrapRunsF l.length l

/-- Spec-side formulation of the claimed substitution semantics: the capture
is non-greedy, i.e. the smallest valid capture length (`head?` of the
increasing candidate list). -/
def matchNonGreedy (closeTag rest : List Char) : Option Nat :=
  ((List.range (rest.length + 1)).filter
    (fun k => decide (1 ≤ k) && (rest.take k).all (fun c => c != '\n')
      && closeTag.isPrefixOf (rest.drop k))).head?

/-- Spec-side formulation of the claimed `<sub>` substitution: non-greedy
capture and replacement of the first match only, the remainder of the title
passing through unchanged. -/
def subSubstSpecFirstF : Nat → List Char → List Char
  | _, [] => []
  | 0, _ :: _ => []
  | fuel + 1, c :: t =>
    if ("<sub>").toList.isPrefixOf (c :: t) then
      match matchNonGreedy ("</sub>").toList (t.drop 4) with
      | some k =>
          ("$_\x7b").toList ++ (t.drop 4).take k ++ ("\x7d$").toList
            ++ (t.drop 4).drop (k + 6)
      | none => c :: subSubstSpecFirstF fuel t
    else c :: subSubstSpecFirstF fuel t

/-- Spec-side claimed `<sub>` substitution on a whole title. -/
def subSubstSpecFirst (l : List Char) : List Char := subSubstSpecFirstF l.length l

/-- A date structure carrying a single year, `⦃date-parts: [[y]]⦄`. -/
def yearDate (y : Nat) : DateStruct := { dateParts := some [[y]] }

/-- The record of the spec's worked example: title `NASA study`, one author
`Lee, A`, issued year 2019. -/
def recC4 : PyRecord :=
  { emptyRecord with
      title := some (("NASA study").toList)
      author := some [{ family := some (("Lee").toList), given := some (("A").toList) }]
      issued := some (yearDate 2019) }

/-- A record with an author and a title but with neither `issued` nor
`epub-date`. -/
def recMissingYear : PyRecord :=
  { emptyRecord with
      title := some (("T").toList)
      author := some [{ family := some (("Smith").toList), given := none }] }

/-- A record with a year but no `author` key. -/
def recYearNoAuthorKey : PyRecord :=
  { emptyRecord with issued := some (yearDate 2020) }

/-- A record with a year and an empty `author` array. -/
def recYearEmptyAuthors : PyRecord :=
  { emptyRecord with issued := some (yearDate 2020), author := some [] }

/-- A record with a year whose only author has a `given` name but no
`family` name. -/
def recGivenOnly : PyRecord :=
  { emptyRecord with
      author := some [{ family := none, given := some (("A").toList) }]
      issued := some (yearDate 2019) }

/-- A record with a year whose only author has a `family` name. -/
def recFamilyOnly : PyRecord :=
  { emptyRecord with
      author := some [{ family := some (("Smith").toList), given := none }]
      issued := some (yearDate 2020) }

/-- A record with a markup-free mixed-case title, used as a concrete witness
input. -/
def recPlainTitle : PyRecord :=
  { emptyRecord with
      title := some (("The NASA x").toList)
      author := some [{ family := some (("Lee").toList), given := some (("A").toList) }]
      issued := some (yearDate 2020) }

/-- A batch of three identifiers of which the second is not found. -/
def demoBatch : List (List Char × LookupResponse) :=
  [(("1").toList, .found recC4), (("2").toList, .notFound), (("3").toList, .found recFamilyOnly)]

/-- The fields computed for `recC4` with `use_short = false`. -/
def fldsC4 : EntryFields :=
  { ref_id := ("Lee2019").toList
    title := ("\x7bNASA\x7d study").toList
    author := ("Lee, A").toList
    j1label := ("journal").toList
    j1 := []
    j2label := ("journal-short").toList
    j2 := []
    volume := []
    pages := []
    year := ("2019").toList
    doi := [] }

/-- The fields computed for `recC4` with `use_short = true`. -/
def fldsC4T : EntryFields :=
  { fldsC4 with j1label := ("journal-long").toList, j2label := ("journal").toList }

/-- The fields computed for `recPlainTitle` with `use_short = false`. -/
def fldsPlainTitle : EntryFields :=
  { ref_id := ("Lee2020").toList
    title := ("\x7bT\x7dhe \x7bNASA\x7d x").toList
    author := ("Lee, A").toList
    j1label := ("journal").toList
    j1 := []
    j2label := ("journal-short").toList
    j2 := []
    volume := []
    pages := []
    year := ("2020").toList
    doi := [] }

/-- Inversion of a successful `format_fields` run: the year and key steps
succeeded and every field has its defining value. -/
theorem format_fields_ok_shape (idrec : List Char × PyRecord) (pref : Bool)
    (flds : EntryFields) (h : format_fields idrec pref = .ok flds) :
    ∃ rid y, yearStep idrec.2 = .ok (some y)
      ∧ refIdStep (idrec.2.author.getD []) (some y) = .ok rid
      ∧ flds = { ref_id := rid
                 title := titleComponent idrec.2
                 author := authorField idrec.2
                 j1label := (if pref then "journal-long" else "journal").toList
                 j1 := idrec.2.containerTitle.getD []
                 j2label := (if pref then "journal" else "journal-short").toList
                 j2 := idrec.2.containerTitleShort.getD []
                 volume := idrec.2.volume.getD []
                 pages := idrec.2.page.getD []
                 year := natStr y
                 doi := idrec.2.doi.getD [] } := by
  simp only [format_fields] at h
  rcases hy : yearStep idrec.2 with e | y?
  · rw [hy] at h; simp at h
  · rw [hy] at h; dsimp only at h
    rcases hr : refIdStep (idrec.2.author.getD []) y? with e | rid
    · rw [hr] at h; simp at h
    · rw [hr] at h; dsimp only at h
      rcases y? with _ | y
      · simp at h
      · exact ⟨rid, y, rfl, hr, (Except.ok.inj h).symm⟩

/-- When `<sub>` does not occur in the scanned list, the scanner of line 25
leaves it unchanged. -/
theorem subSubstF_id (fuel : Nat) : ∀ l : List Char, l.length ≤ fuel →
    containsTag (("<sub>").toList) l = false → subSubstF fuel l = l := by
  induction fuel with
  | zero =>
    intro l hl _
    cases l with
    | nil => rfl
    | cons c t => simp at hl
  | succ n ih =>
    intro l hl hc
    cases l with
    | nil => rfl
    | cons c t =>
      rw [containsTag, Bool.or_eq_false_iff] at hc
      obtain ⟨h1, h2⟩ := hc
      simp only [subSubstF, h1, Bool.false_eq_true, if_false]
      rw [ih t (by simp at hl; omega) h2]

/-- When `<sup>` does not occur in the scanned list, the scanner of line 26
leaves it unchanged. -/
theorem supSubstF_id (fuel : Nat) : ∀ l : List Char, l.length ≤ fuel →
    containsTag (("<sup>").toList) l = false → supSubstF fuel l = l := by
  induction fuel with
  | zero =>
    intro l hl _
    cases l with
    | nil => rfl
    | cons c t => simp at hl
  | succ n ih =>
    intro l hl hc
    cases l with
    | nil => rfl
    | cons c t =>
      rw [containsTag, Bool.or_eq_false_iff] at hc
      obtain ⟨h1, h2⟩ := hc
      simp only [supSubstF, h1, Bool.false_eq_true, if_false]
      rw [ih t (by simp at hl; omega) h2]

/-- The fuel argument of `wrapRunsF` is irrelevant once it dominates the
length of the list. -/
theorem wrapRunsF_congr (f : Nat) : ∀ (g : Nat) (l : List Char),
    l.length ≤ f → l.length ≤ g → wrapRunsF f l = wrapRunsF g l := by
  induction f with
  | zero =>
    intro g l hf _
    cases l with
    | nil => cases g <;> rfl
    | cons c t => simp at hf
  | succ n ih =>
    intro g l hf hg
    cases l with
    | nil => cases g <;> rfl
    | cons c t =>
      cases g with
      | zero => simp at hg
      | succ m =>
        simp only [wrapRunsF]
        by_cases hc : isUp c
        · simp only [hc, if_true]
          have hd : ((c :: t).dropWhile isUp).length ≤ t.length := by
            rw [List.dropWhile_cons_of_pos hc]
            exact (List.dropWhile_suffix isUp).length_le
          rw [ih m ((c :: t).dropWhile isUp) (by simp at hf; omega) (by simp at hg; omega)]
        · simp only [hc, Bool.false_eq_true, if_false]
          have hd : ((c :: t).dropWhile (fun x => !isUp x)).length ≤ t.length := by
            rw [List.dropWhile_cons_of_pos (by simp [hc])]
            exact (List.dropWhile_suffix _).length_le
          rw [ih m ((c :: t).dropWhile (fun x => !isUp x)) (by simp at hf; omega)
            (by simp at hg; omega)]

/-- Splitting off the leading non-uppercase run does not change the result of
`wrapRunsF`. -/
theorem wrapRunsF_nonUp_split (f : Nat) (t : List Char) (hf : t.length ≤ f) :
    wrapRunsF f t
      = t.takeWhile (fun x => !isUp x) ++ wrapRunsF f (t.dropWhile (fun x => !isUp x)) := by
  cases t with
  | nil => simp [wrapRunsF]
  | cons c t' =>
    by_cases hc : isUp c
    · rw [List.takeWhile_cons_of_neg (by simp [hc]), List.dropWhile_cons_of_neg (by simp [hc])]
      simp
    · cases f with
      | zero => simp at hf
      | succ m =>
        simp only [wrapRunsF, hc, Bool.false_eq_true, if_false]
        have hd : ((c :: t').dropWhile (fun x => !isUp x)).length ≤ m := by
          rw [List.dropWhile_cons_of_pos (by simp [hc])]
          have := (List.dropWhile_suffix (p := fun x => !isUp x) (l := t')).length_le
          simp at hf; omega
        rw [wrapRunsF_congr m (m + 1) _ hd (by omega)]

/-- The scanner of line 28 computes exactly the spec-side maximal-run
wrapping. -/
theorem capsWrapF_eq_wrapRunsF (f : Nat) : ∀ l : List Char, l.length ≤ f →
    capsWrapF f l = wrapRunsF f l := by
  induction f with
  | zero =>
    intro l hf
    cases l with
    | nil => rfl
    | cons c t => simp at hf
  | succ n ih =>
    intro l hf
    cases l with
    | nil => rfl
    | cons c t =>
      by_cases hc : isUp c
      · simp only [capsWrapF, wrapRunsF, hc, if_true]
        have hd : ((c :: t).dropWhile isUp).length ≤ n := by
          rw [List.dropWhile_cons_of_pos hc]
          have := (List.dropWhile_suffix isUp (l := t)).length_le
          simp at hf; omega
        rw [ih _ hd]
      · simp only [capsWrapF, wrapRunsF, hc, Bool.false_eq_true, if_false]
        have ht : t.length ≤ n := by simp at hf; omega
        rw [ih t ht, wrapRunsF_nonUp_split n t ht,
          List.takeWhile_cons_of_pos (by simp [hc]), List.dropWhile_cons_of_pos (by simp [hc])]
        simp

/-- On a whole title, line 28 and the spec-side maximal-run wrapping agree. -/
theorem capsWrap_eq_wrapRuns (l : List Char) : capsWrap l = wrapRuns l :=
  capsWrapF_eq_wrapRunsF l.length l (Nat.le_refl _)

/-- Greedy matching against `X ++ C` with a newline-free non-empty `X`
captures exactly `X`: position `X.length` is valid, and no later position can
start the closing tag because too few characters remain. -/
theorem matchGreedy_append (C X : List Char) (hX : X ≠ [])
    (hnl : X.all (fun c => c != '\n') = true) :
    matchGreedy C (X ++ C) = some X.length := by
  unfold matchGreedy
  have hlen : (X ++ C).length + 1 = (X.length + 1) + C.length := by
    simp [List.length_append]; omega
  rw [hlen, List.range_add, List.filter_append]
  have h2 : (((List.range C.length).map (fun x => X.length + 1 + x)).filter
      (fun k => decide (1 ≤ k) && ((X ++ C).take k).all (fun c => c != '\n')
        && C.isPrefixOf ((X ++ C).drop k))) = [] := by
    rw [List.filter_eq_nil_iff]
    intro a ha hpred
    simp only [List.mem_map, List.mem_range] at ha
    obtain ⟨x, hx, rfl⟩ := ha
    simp only [Bool.and_eq_true] at hpred
    have hp := hpred.2
    rw [List.isPrefixOf_iff_prefix] at hp
    have hle := hp.length_le
    simp only [List.length_drop, List.length_append] at hle
    omega
  rw [h2, List.append_nil, List.range_succ, List.filter_append]
  have h1 : (List.filter
      (fun k => decide (1 ≤ k) && ((X ++ C).take k).all (fun c => c != '\n')
        && C.isPrefixOf ((X ++ C).drop k)) [X.length]) = [X.length] := by
    simp only [List.filter_cons, List.filter_nil]
    rw [if_pos]
    rw [Bool.and_eq_true, Bool.and_eq_true]
    refine ⟨⟨?_, ?_⟩, ?_⟩
    · have := List.length_pos.mpr hX
      simp only [decide_eq_true_eq]
      omega
    · rw [List.take_left]
      exact hnl
    · rw [List.drop_left, List.isPrefixOf_iff_prefix]
  rw [h1]
  exact List.getLast?_concat _

/-- On a title of the form `<sub>X</sub>` with `X` non-empty and single-line,
the greedy global substitution of line 25 yields `$_\x7bX\x7d$` with `X`
unchanged. -/
theorem subSubst_single_pair (X : List Char) (hX : X ≠ [])
    (hnl : X.all (fun c => c != '\n') = true) :
    subSubst (("<sub>").toList ++ X ++ ("</sub>").toList)
      = ("$_\x7b").toList ++ X ++ ("\x7d$").toList := by
  unfold subSubst
  have hL : (("<sub>").toList ++ X ++ ("</sub>").toList).length = (X.length + 10) + 1 := by
    simp [List.length_append]
  rw [hL]
  have hsh : ("<sub>").toList ++ X ++ ("</sub>").toList
      = '<' :: ('s' :: 'u' :: 'b' :: '>' :: (X ++ ("</sub>").toList)) := by
    simp
  rw [hsh]
  rw [subSubstF]
  rw [if_pos (by rw [List.isPrefixOf_iff_prefix]; exact ⟨X ++ ("</sub>").toList, by simp⟩)]
  have hdrop : ('s' :: 'u' :: 'b' :: '>' :: (X ++ ("</sub>").toList)).drop 4
      = X ++ ("</sub>").toList := rfl
  rw [hdrop, matchGreedy_append (("</sub>").toList) X hX hnl]
  dsimp only
  have hdrop6 : (X ++ ("</sub>").toList).drop (X.length + 6) = [] := by
    have : X.length + 6 = X.length + 6 := rfl
    rw [show X.length + 6 = X.length + ("</sub>").toList.length from rfl]
    rw [List.drop_append]
    rfl
  rw [List.take_left, hdrop6]
  simp [subSubstF]

/-- Claim C1: the claim states that a record missing both `issued` and
`epub-date` makes `format_reference` fail with a classified, catchable
`MissingYearError`, and that any record with one of them present returns
normally regardless of other missing fields.  The code instead leaves `year`
unassigned and raises an unclassified `UnboundLocalError` at
`ref_id += str(year)`, and with a year present but the `author` key absent it
raises `IndexError` at `authors[0]` instead of returning. -/
theorem claim_C1_missing_year_unclassified :
    format_reference (("11111").toList, recMissingYear) false = .error .unboundLocalError
    ∧ format_reference (("11111").toList, recYearNoAuthorKey) false = .error .indexError := by
  constructor
  · decide
  · decide

/-- Claim C2: the claim states that a record with empty or absent `authors`
and a derivable year formats normally with an empty author field.  The code
instead raises `IndexError` at `authors[0]` (line 53) in both cases. -/
theorem claim_C2_empty_authors_crash :
    format_reference (("11111").toList, recYearEmptyAuthors) false = .error .indexError
    ∧ format_reference (("22222").toList, recYearNoAuthorKey) false = .error .indexError := by
  constructor
  · decide
  · decide

/-- Claim C3 fails on the code: the capture of `<sub>(.+)</sub>` is greedy
(not non-greedy) and `re.sub` replaces all matches (not only the first), so on
a title with two tag pairs the code produces a single match spanning to the
last closing tag, not the claimed first-tag-only replacement. -/
theorem claim_C3_counterexample :
    subSubst (("<sub>a</sub>b<sub>c</sub>").toList) = ("$_\x7ba</sub>b<sub>c\x7d$").toList
    ∧ subSubstSpecFirst (("<sub>a</sub>b<sub>c</sub>").toList)
        = ("$_\x7ba\x7d$b<sub>c</sub>").toList
    ∧ subSubst (("<sub>a</sub>b<sub>c</sub>").toList)
        ≠ subSubstSpecFirst (("<sub>a</sub>b<sub>c</sub>").toList) := by
  refine ⟨by decide, by decide, by decide⟩

/-- Claim C3 (amended): the substitution is greedy and global; on a title
with two tag pairs the single greedy match spans from the first opening tag to
the last closing tag, and for a title consisting of exactly one tag pair with
non-empty single-line content `X` the result is `$_\x7bX\x7d$` with `X`
unchanged. -/
theorem claim_C3_amended :
    subSubst (("<sub>a</sub>b<sub>c</sub>").toList) = ("$_\x7ba</sub>b<sub>c\x7d$").toList
    ∧ ∀ X : List Char, X ≠ [] → X.all (fun c => c != '\n') = true →
        subSubst (("<sub>").toList ++ X ++ ("</sub>").toList)
          = ("$_\x7b").toList ++ X ++ ("\x7d$").toList :=
  ⟨by decide, fun X hX hnl => subSubst_single_pair X hX hnl⟩

/-- Witness for the amended claim C3 at the concrete capture `xy`. -/
theorem claim_C3_amended_witness :
    subSubst (("<sub>").toList ++ ("xy").toList ++ ("</sub>").toList)
      = ("$_\x7b").toList ++ ("xy").toList ++ ("\x7d$").toList :=
  claim_C3_amended.2 (("xy").toList) (by decide) (by decide)

/-- Claim C4 fails on the code: for the spec's worked example the entry key is
`Lee2019` as claimed, but the title field is `\x7bNASA\x7d study` — rendered in
the entry as `title = \x7b\x7bNASA\x7d study\x7d` — not the claimed
`\x7b\x7bNASA\x7d\x7d study` (under either reading of "field", with or without
the surrounding template braces). -/
theorem claim_C4_counterexample :
    format_fields (("11111").toList, recC4) false = .ok fldsC4
    ∧ fldsC4.title = ("\x7bNASA\x7d study").toList
    ∧ fldsC4.title ≠ ("\x7b\x7bNASA\x7d\x7d study").toList
    ∧ ("\x7b").toList ++ fldsC4.title ++ ("\x7d").toList
        ≠ ("\x7b\x7bNASA\x7d\x7d study").toList := by
  refine ⟨by decide, by decide, by decide, by decide⟩

set_option maxRecDepth 8192 in
/-- Claim C4 (amended): the worked example yields entry key `Lee2019` and
title field `\x7bNASA\x7d study`, the full rendered entry being the literal
below. -/
theorem claim_C4_amended :
    (format_fields (("11111").toList, recC4) false).map EntryFields.ref_id
        = .ok (("Lee2019").toList)
    ∧ (format_fields (("11111").toList, recC4) false).map EntryFields.title
        = .ok (("\x7bNASA\x7d study").toList)
    ∧ format_reference (("11111").toList, recC4) false
        = .ok (("@article\x7bLee2019,\n    title = \x7b\x7bNASA\x7d study\x7d,\n    author = \x7bLee, A\x7d,\n    journal = \x7b\x7d,\n    journal-short = \x7b\x7d,\n    volume = \x7b\x7d,\n    pages = \x7b\x7d,\n    year = \x7b2019\x7d,\n    doi = \x7b\x7d\n\x7d\n").toList) := by
  refine ⟨by decide, by decide, by decide⟩

/-- Claim C5: the first half holds — a first author with a `family` name
yields the title-cased family name followed by the year digits (`Smith2020`).
The second half fails on the code: when the first author has only a `given`
name, line 54 binds `ref_id` to the author dict itself and line 55 raises
`TypeError` at `ref_id += str(year)`; the `given` name is never used. -/
theorem claim_C5_given_only_crash :
    format_reference (("11111").toList, recGivenOnly) false = .error .typeError
    ∧ (format_fields (("22222").toList, recFamilyOnly) false).map EntryFields.ref_id
        = .ok (("Smith2020").toList) := by
  constructor
  · decide
  · decide

/-- Claim C6: the claim states that a batch of three identifiers with one
not-found terminates normally with success count 2 and failure count 1.  The
code instead raises `AttributeError` on the very first item: line 109
evaluates `'status' in ref.keys()` on the `(id, response)` tuple returned by
`get_reference`, and tuples have no `keys` method. -/
theorem claim_C6_batch_crash :
    convert_references demoBatch = .error .attributeError := by decide

/-- Claim C7: for every record that formats successfully, whose non-empty
title contains none of the markup tags `<sub>`, `</sub>`, `<sup>`, `</sup>`,
the title field of the output equals the input title with every maximal run of
consecutive uppercase ASCII letters wrapped in braces and all other characters
unchanged. -/
theorem claim_C7_title_wrap (idrec : List Char × PyRecord) (pref : Bool)
    (flds : EntryFields) (h : format_fields idrec pref = .ok flds)
    (_hne : idrec.2.title.getD [] ≠ [])
    (h1 : containsTag (("<sub>").toList) (idrec.2.title.getD []) = false)
    (_h2 : containsTag (("</sub>").toList) (idrec.2.title.getD []) = false)
    (h3 : containsTag (("<sup>").toList) (idrec.2.title.getD []) = false)
    (_h4 : containsTag (("</sup>").toList) (idrec.2.title.getD []) = false) :
    flds.title = wrapRuns (idrec.2.title.getD []) := by
  obtain ⟨rid, y, -, -, rfl⟩ := format_fields_ok_shape idrec pref flds h
  show titleComponent idrec.2 = _
  unfold titleComponent sanitizeTitle
  rw [show subSubst (idrec.2.title.getD [])
      = subSubstF (idrec.2.title.getD []).length (idrec.2.title.getD []) from rfl]
  rw [subSubstF_id _ _ (Nat.le_refl _) h1]
  rw [show supSubst (idrec.2.title.getD [])
      = supSubstF (idrec.2.title.getD []).length (idrec.2.title.getD []) from rfl]
  rw [supSubstF_id _ _ (Nat.le_refl _) h3]
  exact capsWrap_eq_wrapRuns _

/-- Witness for claim C7 at the concrete record with title `The NASA x`. -/
theorem claim_C7_witness :
    fldsPlainTitle.title = wrapRuns (("The NASA x").toList) :=
  claim_C7_title_wrap (("11111").toList, recPlainTitle) false fldsPlainTitle
    (by decide) (by decide) (by decide) (by decide) (by decide) (by decide)

/-- Claim C8: for every record that formats successfully, the author field is
the sequence-ordered renderings — `family, given` when both parts are present,
the single present part otherwise, skipping authors with neither — joined
with `" and "`. -/
theorem claim_C8_author_field (idrec : List Char × PyRecord) (pref : Bool)
    (flds : EntryFields) (h : format_fields idrec pref = .ok flds) :
    flds.author = List.intercalate ((" and ").toList)
      ((idrec.2.author.getD []).filterMap (fun a =>
        match a.family, a.given with
        | some f, some g => some (f ++ (", ").toList ++ g)
        | some f, none => some f
        | none, some g => some g
        | none, none => none)) := by
  obtain ⟨rid, y, -, -, rfl⟩ := format_fields_ok_shape idrec pref flds h
  rfl

/-- Witness for claim C8 at the concrete record `recC4`. -/
theorem claim_C8_witness : fldsC4.author = ("Lee, A").toList :=
  claim_C8_author_field (("11111").toList, recC4) false fldsC4 (by decide)

/-- Claim C9: across the two values of `use_short` the journal labels are as
stated (line 1 `journal` with the long value and line 2 `journal-short` with
the short value for `false`; line 1 `journal-long` with the long value and
line 2 `journal` with the short value for `true`) and every other field,
including both journal values, is identical. -/
theorem claim_C9_journal_swap (idrec : List Char × PyRecord)
    (fldsF fldsT : EntryFields)
    (hF : format_fields idrec false = .ok fldsF)
    (hT : format_fields idrec true = .ok fldsT) :
    fldsF.j1label = ("journal").toList ∧ fldsF.j2label = ("journal-short").toList
    ∧ fldsT.j1label = ("journal-long").toList ∧ fldsT.j2label = ("journal").toList
    ∧ fldsF.j1 = idrec.2.containerTitle.getD [] ∧ fldsT.j1 = idrec.2.containerTitle.getD []
    ∧ fldsF.j2 = idrec.2.containerTitleShort.getD []
    ∧ fldsT.j2 = idrec.2.containerTitleShort.getD []
    ∧ fldsF.ref_id = fldsT.ref_id ∧ fldsF.title = fldsT.title ∧ fldsF.author = fldsT.author
    ∧ fldsF.volume = fldsT.volume ∧ fldsF.pages = fldsT.pages ∧ fldsF.year = fldsT.year
    ∧ fldsF.doi = fldsT.doi := by
  obtain ⟨ridF, yF, hyF, hrF, rfl⟩ := format_fields_ok_shape _ _ _ hF
  obtain ⟨ridT, yT, hyT, hrT, rfl⟩ := format_fields_ok_shape _ _ _ hT
  rw [hyF] at hyT
  obtain rfl : yF = yT := Option.some.inj (Except.ok.inj hyT)
  rw [hrF] at hrT
  obtain rfl : ridF = ridT := Except.ok.inj hrT
  exact ⟨rfl, rfl, rfl, rfl, rfl, rfl, rfl, rfl, rfl, rfl, rfl, rfl, rfl, rfl, rfl⟩

/-- Witness for claim C9 at the concrete record `recC4`. -/
theorem claim_C9_witness :
    fldsC4.j1label = ("journal").toList ∧ fldsC4.j2label = ("journal-short").toList
    ∧ fldsC4T.j1label = ("journal-long").toList ∧ fldsC4T.j2label = ("journal").toList
    ∧ fldsC4.j1 = recC4.containerTitle.getD [] ∧ fldsC4T.j1 = recC4.containerTitle.getD []
    ∧ fldsC4.j2 = recC4.containerTitleShort.getD []
    ∧ fldsC4T.j2 = recC4.containerTitleShort.getD []
    ∧ fldsC4.ref_id = fldsC4T.ref_id ∧ fldsC4.title = fldsC4T.title
    ∧ fldsC4.author = fldsC4T.author ∧ fldsC4.volume = fldsC4T.volume
    ∧ fldsC4.pages = fldsC4T.pages ∧ fldsC4.year = fldsC4T.year
    ∧ fldsC4.doi = fldsC4T.doi :=
  claim_C9_journal_swap (("11111").toList, recC4) fldsC4 fldsC4T (by decide) (by decide)

/-- Claim C10: the identifier component of the `(id, record)` pair is unpacked
on line 22 and never used, so the output of `format_reference` is identical
for any two identifiers paired with the same record and preference. -/
theorem claim_C10_identifier_independent (id1 id2 : List Char) (r : PyRecord) (pref : Bool) :
    format_reference (id1, r) pref = format_reference (id2, r) pref := rfl
